import Mathlib

/-!
Verification development for the trip-website backend (`server/index.js`).

The backend is a small Express service owning two tables:
  * `people` (trip members) with a partial-update (PATCH) endpoint,
  * `gallery` (photo metadata) with a list endpoint and a multipart upload
    endpoint guarded by a multer `fileFilter` (extension whitelist) and a
    `limits.fileSize` ceiling of 5 MiB.

Below, each route handler and the startup seeding step are embedded as pure
Lean functions over explicit state.  Machine-level concerns (HTTP transport,
SQLite encoding) are abstracted: a table is a list of records, the request
body of the PATCH route is a lookup function from key to optional value, and
the multipart payload is a byte list.
-/

namespace TripSite

/-- A row of the `people` table
(`id INTEGER PRIMARY KEY, name, task_status, transport_type, eta, payment_status TEXT`). -/
structure Person where
  id : Nat
  name : String
  task_status : String
  transport_type : String
  eta : String
  payment_status : String
deriving Repr, DecidableEq

/-- A row of the `gallery` table
(`id INTEGER PRIMARY KEY, filename TEXT, url TEXT, uploaded_at DATETIME`).
`uploaded_at` is modelled as a numeric server-clock timestamp. -/
structure Photo where
  id : Nat
  filename : String
  url : String
  uploaded_at : Nat
deriving Repr, DecidableEq

/-! ### Seeding (`server/index.js` lines 41-47)

On startup the server counts the `people` rows and, when the count is zero,
inserts the two fixed sample members.  `AUTOINCREMENT` assigns ids 1 and 2 on
a fresh table. -/

/-- First seeded row: `seed.run('Alice', 'pending', 'car', '', 'unpaid')`. -/
def aliceSeed : Person :=
  { id := 1, name := "Alice", task_status := "pending", transport_type := "car",
    eta := "", payment_status := "unpaid" }

/-- Second seeded row: `seed.run('Bob', 'pending', 'plane', '', 'unpaid')`. -/
def bobSeed : Person :=
  { id := 2, name := "Bob", task_status := "pending", transport_type := "plane",
    eta := "", payment_status := "unpaid" }

/-- The startup seed step: `if (peopleCount === 0) { seed.run(...); seed.run(...) }`. -/
def seedPeople (people : List Person) : List Person :=
  if people.length = 0 then [aliceSeed, bobSeed] else people

/-! ### PATCH `/people/:id` (`server/index.js` lines 77-96) -/

/-- The recognized field list, in the order the handler iterates over it. -/
def recognizedFields : List String :=
  ["task_status", "transport_type", "eta", "payment_status"]

/-- `updates.length !== 0` after the loop: at least one recognized key is
present in the request body.  The body is modelled as a lookup function
(`body k = some v` iff key `k` is present with value `v`); keys outside the
recognized list are never consulted by the handler, so they are ignored by
construction. -/
def hasValidField (body : String → Option String) : Bool :=
  (body "task_status").isSome || (body "transport_type").isSome ||
    (body "eta").isSome || (body "payment_status").isSome

/-- Effect of `UPDATE people SET <supplied fields> WHERE id = ?` on one row:
each recognized key present in the body overwrites the corresponding column. -/
def applyUpdates (body : String → Option String) (p : Person) : Person :=
  let p1 := match body "task_status" with
    | some v => { p with task_status := v }
    | none => p
  let p2 := match body "transport_type" with
    | some v => { p1 with transport_type := v }
    | none => p1
  let p3 := match body "eta" with
    | some v => { p2 with eta := v }
    | none => p2
  match body "payment_status" with
    | some v => { p3 with payment_status := v }
    | none => p3

/-- The PATCH `/people/:id` handler.  Returns the table after the request and
the HTTP outcome: `Except.error` is the 400 response
`{ message: 'No valid fields provided' }`, `Except.ok` carries the read-back
`SELECT * FROM people WHERE id = ?` (which may be absent for an unknown id). -/
def patchPeople (people : List Person) (target : Nat) (body : String → Option String) :
    List Person × Except String (Option Person) :=
  if hasValidField body then
    let people2 := people.map fun p => if p.id = target then applyUpdates body p else p
    (people2, Except.ok (people2.find? fun p => p.id = target))
  else
    (people, Except.error "No valid fields provided")

/-! ### File-ingestion policy (`server/index.js` lines 49-69)

`path.extname` of Node.js, restricted to basenames (the browser-supplied
`originalname` carries no path separators): the extension runs from the last
`'.'` to the end of the string; it is empty when there is no dot, when the
only dot is the leading character, or for the literal name `".."`. -/

/-- Index of the last occurrence of `'.'` in a character list, if any. -/
def lastDotIdx : List Char → Option Nat
  | [] => none
  | c :: rest =>
    match lastDotIdx rest with
    | some i => some (i + 1)
    | none => if c = '.' then some 0 else none

/-- Node's `path.extname` on a basename. -/
def extname (s : String) : String :=
  if s = ".." then ""
  else
    match lastDotIdx s.data with
    | none => ""
    | some 0 => ""
    | some i => String.mk (s.data.drop i)

/-- The multipart payload: the uploader's original filename and the raw bytes. -/
structure UploadFile where
  originalname : String
  content : List Nat
deriving Repr, DecidableEq

/-- `file.size` as counted by multer: the byte length of the payload. -/
def UploadFile.size (f : UploadFile) : Nat := f.content.length

/-- JavaScript's `String.prototype.toLowerCase`, modelled for ASCII filenames
(each character lowercased independently; on the ASCII range JS and
`Char.toLower` agree). -/
def jsToLower (s : String) : String :=
  String.mk (s.data.map Char.toLower)

/-- The extension whitelist `['.jpg', '.jpeg', '.png']` of the `fileFilter`. -/
def allowedExts : List String := [".jpg", ".jpeg", ".png"]

/-- The multer `fileFilter`: accept iff
`allowed.includes(path.extname(file.originalname).toLowerCase())`. -/
def fileFilterOk (f : UploadFile) : Bool :=
  allowedExts.contains (jsToLower (extname f.originalname))

/-- `limits: { fileSize: 5 * 1024 * 1024 }`. -/
def maxFileSize : Nat := 5 * 1024 * 1024

/-- The `unique` token of the disk-storage filename callback:
`Date.now() + '-' + Math.round(Math.random() * 1e9)`, with the clock reading
`t` and the rounded random draw `r` as explicit inputs. -/
def uniqueToken (t r : Nat) : String :=
  toString t ++ "-" ++ toString r

/-- The generated on-disk storage name: `` `${unique}${ext}` `` where
`ext = path.extname(file.originalname)`. -/
def storageName (t r : Nat) (originalname : String) : String :=
  uniqueToken t r ++ extname originalname

/-- Error taxonomy of the ingest path: `validation` covers the 400 response
`'No file uploaded'` and the `fileFilter` rejection `'Invalid file type'`;
`payloadTooLarge` is multer's `LIMIT_FILE_SIZE` rejection. -/
inductive IngestError where
  | validation (msg : String)
  | payloadTooLarge
deriving Repr, DecidableEq

/-- Gallery-side server state: the `gallery` rows, the next `AUTOINCREMENT`
id, and the storage names written into the `uploads` directory. -/
structure GalleryState where
  photos : List Photo
  nextId : Nat
  files : List String
deriving Repr, DecidableEq

/-- Fresh server state: empty table, ids from 1, empty uploads directory. -/
def emptyGallery : GalleryState := { photos := [], nextId := 1, files := [] }

/-- POST `/gallery/upload` — the multer middleware followed by the handler.
Inputs beyond the state: the optional file part, the request's protocol and
host (used to build the absolute URL), the clock reading `t` and random draw
`r` of the storage-name callback, and the `CURRENT_TIMESTAMP` value `now`
assigned to `uploaded_at`.  On success the response is `{ id, url }`.
Validation failures write nothing: multer removes a partially stored file
when the size limit aborts the request, and rejection by the `fileFilter`
happens before any byte is stored. -/
def ingest (g : GalleryState) (file : Option UploadFile) (protocol host : String)
    (t r now : Nat) : GalleryState × Except IngestError (Nat × String) :=
  match file with
  | none => (g, Except.error (IngestError.validation "No file uploaded"))
  | some f =>
    if fileFilterOk f = false then
      (g, Except.error (IngestError.validation "Invalid file type"))
    else if maxFileSize < f.size then
      (g, Except.error IngestError.payloadTooLarge)
    else
      let sname := storageName t r f.originalname
      let url := protocol ++ "://" ++ host ++ "/uploads/" ++ sname
      let photo : Photo :=
        { id := g.nextId, filename := f.originalname, url := url, uploaded_at := now }
      ({ photos := g.photos ++ [photo], nextId := g.nextId + 1,
         files := g.files ++ [sname] },
       Except.ok (g.nextId, url))

/-- One upload request: the file part plus the request metadata `ingest` needs. -/
structure UploadReq where
  file : Option UploadFile
  protocol : String
  host : String
  t : Nat
  r : Nat
  now : Nat

/-- Whether `ingest` accepts the request (all validation passes). -/
def UploadReq.accepted (q : UploadReq) : Bool :=
  match q.file with
  | none => false
  | some f => fileFilterOk f && decide (f.size ≤ maxFileSize)

/-- Run one request against the state, keeping the state. -/
def ingestReq (g : GalleryState) (q : UploadReq) : GalleryState × Except IngestError (Nat × String) :=
  ingest g q.file q.protocol q.host q.t q.r q.now

/-- Run a sequence of requests. -/
def runIngests (g : GalleryState) (qs : List UploadReq) : GalleryState :=
  qs.foldl (fun s q => (ingestReq s q).1) g

/-- `ORDER BY uploaded_at DESC`: `a` may precede `b` iff `a`'s upload time
is at least `b`'s. -/
def galleryLe (a b : Photo) : Prop := b.uploaded_at ≤ a.uploaded_at

instance : DecidableRel galleryLe :=
  fun a b => Nat.decLe b.uploaded_at a.uploaded_at

instance : IsTotal Photo galleryLe :=
  ⟨fun a b => Nat.le_total b.uploaded_at a.uploaded_at⟩

instance : IsTrans Photo galleryLe :=
  ⟨fun _ _ _ hab hbc => Nat.le_trans hbc hab⟩

/-- GET `/gallery` — `SELECT * FROM gallery ORDER BY uploaded_at DESC`:
a sort of the rows by descending `uploaded_at`. -/
def listGallery (g : GalleryState) : List Photo :=
  g.photos.insertionSort galleryLe

/-- GET `/people` — `SELECT * FROM people`, the rows in table order. -/
def listPeople (people : List Person) : List Person := people

/-- The HTTP status code the upload route surfaces for each outcome:
200 on success; the explicit `res.status(400)` for the missing-file case;
500 for the `fileFilter` and size-limit errors, which travel through
`next(err)` to Express's default error handler (no error-handling middleware
exists in `index.js`, and neither the plain `Error` of the `fileFilter` nor
multer's `MulterError` carries a `status`/`statusCode` field). -/
def uploadHttpStatus : Except IngestError (Nat × String) → Nat
  | Except.ok _ => 200
  | Except.error (IngestError.validation "No file uploaded") => 400
  | Except.error _ => 500

/-! ### Helper lemmas -/

/-- `applyUpdates` overwrites exactly the supplied fields: a recognized field
takes the supplied value when present and keeps its prior value otherwise,
and `id` and `name` are never touched. -/
theorem applyUpdates_fields (body : String → Option String) (p : Person) :
    (applyUpdates body p).id = p.id ∧
    (applyUpdates body p).name = p.name ∧
    (applyUpdates body p).task_status = (body "task_status").getD p.task_status ∧
    (applyUpdates body p).transport_type = (body "transport_type").getD p.transport_type ∧
    (applyUpdates body p).eta = (body "eta").getD p.eta ∧
    (applyUpdates body p).payment_status = (body "payment_status").getD p.payment_status := by
  cases h1 : body "task_status" <;> cases h2 : body "transport_type" <;>
    cases h3 : body "eta" <;> cases h4 : body "payment_status" <;>
      simp [applyUpdates, h1, h2, h3, h4]

/-! ### C1 — partial update overwrites exactly the supplied fields -/

/-- C1: for a body containing at least one recognized field, PATCH rewrites
only the rows whose id matches the target, replacing each of them by
`applyUpdates body`; and `applyUpdates body` overwrites exactly the supplied
fields with the supplied values, keeping every unsupplied field — `id` and
`name` included — identical to its pre-update value. -/
theorem patch_overwrites_exactly_supplied
    (people : List Person) (target : Nat) (body : String → Option String) (p : Person)
    (h : hasValidField body = true) :
    (patchPeople people target body).1
        = people.map (fun q => if q.id = target then applyUpdates body q else q) ∧
    (applyUpdates body p).id = p.id ∧
    (applyUpdates body p).name = p.name ∧
    (applyUpdates body p).task_status = (body "task_status").getD p.task_status ∧
    (applyUpdates body p).transport_type = (body "transport_type").getD p.transport_type ∧
    (applyUpdates body p).eta = (body "eta").getD p.eta ∧
    (applyUpdates body p).payment_status = (body "payment_status").getD p.payment_status := by
  refine ⟨?_, applyUpdates_fields body p⟩
  simp [patchPeople, h]

/-- C1 witness: patching member 1 of the seeded table with
`{"payment_status": "paid"}` flips exactly Alice's `payment_status`. -/
theorem patch_overwrites_exactly_supplied_witness :
    (patchPeople [aliceSeed, bobSeed] 1
        (fun k => if k = "payment_status" then some "paid" else none)).1
      = [{ aliceSeed with payment_status := "paid" }, bobSeed] := by
  have h := patch_overwrites_exactly_supplied [aliceSeed, bobSeed] 1
    (fun k => if k = "payment_status" then some "paid" else none) aliceSeed (by decide)
  rw [h.1]
  decide

/-! ### C2 — no recognized field: 400, no write -/

/-- C2: when the body contains no recognized key (any unrecognized keys being
ignored — the handler never consults them), PATCH answers 400
`'No valid fields provided'` and leaves the table untouched. -/
theorem patch_no_valid_fields
    (people : List Person) (target : Nat) (body : String → Option String)
    (h1 : body "task_status" = none) (h2 : body "transport_type" = none)
    (h3 : body "eta" = none) (h4 : body "payment_status" = none) :
    patchPeople people target body = (people, Except.error "No valid fields provided") := by
  have hv : hasValidField body = false := by simp [hasValidField, h1, h2, h3, h4]
  simp [patchPeople, hv]

/-- C2 witness: a body holding only the unrecognized key `"color"` is
rejected and the seeded table is unchanged. -/
theorem patch_no_valid_fields_witness :
    patchPeople [aliceSeed, bobSeed] 1
        (fun k => if k = "color" then some "red" else none)
      = ([aliceSeed, bobSeed], Except.error "No valid fields provided") :=
  patch_no_valid_fields [aliceSeed, bobSeed] 1 _
    (by decide) (by decide) (by decide) (by decide)

/-! ### C3 — seeding is idempotent -/

/-- C3: seeding an empty table inserts exactly the two fixed sample members
(both `payment_status = "unpaid"`, `task_status = "pending"`); seeding any
non-empty table is a no-op; hence running the startup sequence twice from an
empty store still yields exactly the original two rows. -/
theorem seed_idempotent (people : List Person) (h : people ≠ []) :
    seedPeople [] = [aliceSeed, bobSeed] ∧
    aliceSeed.payment_status = "unpaid" ∧ aliceSeed.task_status = "pending" ∧
    bobSeed.payment_status = "unpaid" ∧ bobSeed.task_status = "pending" ∧
    seedPeople people = people ∧
    seedPeople (seedPeople []) = seedPeople [] ∧
    (seedPeople (seedPeople [])).length = 2 := by
  refine ⟨by decide, by decide, by decide, by decide, by decide, ?_, by decide, by decide⟩
  simp [seedPeople, List.length_eq_zero, h]

/-- C3 witness: instantiated at a store already holding one row. -/
theorem seed_idempotent_witness :
    seedPeople [] = [aliceSeed, bobSeed] ∧
    aliceSeed.payment_status = "unpaid" ∧ aliceSeed.task_status = "pending" ∧
    bobSeed.payment_status = "unpaid" ∧ bobSeed.task_status = "pending" ∧
    seedPeople [bobSeed] = [bobSeed] ∧
    seedPeople (seedPeople []) = seedPeople [] ∧
    (seedPeople (seedPeople [])).length = 2 :=
  seed_idempotent [bobSeed] (by decide)

/-! ### C7 — update of an unknown identity is a silent no-op -/

/-- C7: a PATCH carrying at least one recognized field but targeting an id
that matches no row succeeds without error: the table is unchanged and the
read-back is absent (`none`). -/
theorem patch_unknown_id_noop
    (people : List Person) (target : Nat) (body : String → Option String)
    (hv : hasValidField body = true)
    (habs : ∀ p ∈ people, p.id ≠ target) :
    patchPeople people target body = (people, Except.ok none) := by
  have hmap : (people.map fun p => if p.id = target then applyUpdates body p else p)
      = people := by
    induction people with
    | nil => simp
    | cons q qs ih =>
      have hq : q.id ≠ target := habs q (by simp)
      simp only [List.map_cons, if_neg hq, List.cons.injEq, true_and]
      exact ih fun p hp => habs p (by simp [hp])
  have hfind : (people.find? fun p => p.id = target) = none := by
    rw [List.find?_eq_none]
    intro p hp
    simpa using habs p hp
  simp [patchPeople, hv, hmap, hfind]

/-- C7 witness: patching the absent id 5 of the seeded table. -/
theorem patch_unknown_id_noop_witness :
    patchPeople [aliceSeed, bobSeed] 5
        (fun k => if k = "payment_status" then some "paid" else none)
      = ([aliceSeed, bobSeed], Except.ok none) :=
  patch_unknown_id_noop [aliceSeed, bobSeed] 5 _ (by decide) (by decide)

/-! ### C5 — extension whitelist, and how its rejection actually surfaces

The `fileFilter` rejects with `cb(new Error('Invalid file type'))`.  Multer
passes that error to `next(err)`; `index.js` registers no error-handling
middleware, and a plain `Error` (like multer's own `MulterError`) carries no
`status`/`statusCode` field, so Express's default final handler answers with
HTTP 500 — not a 400-class status.  Only the missing-file case has an
explicit `res.status(400)` in the handler itself. -/

/-- C5 counterexample: uploading `photo.gif` is rejected with
`'Invalid file type'` as the claim says, but the surfaced status is 500 —
not a 400-class error. -/
theorem ingest_bad_extension_not_400_class :
    (ingest emptyGallery (some ⟨"photo.gif", [1, 2]⟩) "http" "localhost:3001" 10 20 30).2
      = Except.error (IngestError.validation "Invalid file type") ∧
    uploadHttpStatus
        (ingest emptyGallery (some ⟨"photo.gif", [1, 2]⟩) "http" "localhost:3001" 10 20 30).2
      = 500 ∧
    ¬(400 ≤ uploadHttpStatus
          (ingest emptyGallery (some ⟨"photo.gif", [1, 2]⟩) "http" "localhost:3001" 10 20 30).2 ∧
        uploadHttpStatus
          (ingest emptyGallery (some ⟨"photo.gif", [1, 2]⟩) "http" "localhost:3001" 10 20 30).2
          < 500) :=
  ⟨rfl, rfl, by decide⟩

/-- C5 (amended): an upload whose original filename's lowercased extension is
outside `{.jpg, .jpeg, .png}` (including `.gif`, `.txt` and extensionless
names) fails the `fileFilter` and is rejected with the error
`'Invalid file type'` — surfaced by Express's default error handler as
HTTP 500, not as a 400-class status — leaving the gallery table and the
uploads directory untouched; while any filename whose lowercased extension is
in the whitelist passes the extension check. -/
theorem ingest_bad_extension_rejected_as_500
    (g : GalleryState) (f fOk : UploadFile) (protocol host : String) (t r now : Nat)
    (hbad : jsToLower (extname f.originalname) ∉ allowedExts)
    (hok : jsToLower (extname fOk.originalname) ∈ allowedExts) :
    fileFilterOk f = false ∧
    ingest g (some f) protocol host t r now
      = (g, Except.error (IngestError.validation "Invalid file type")) ∧
    uploadHttpStatus (ingest g (some f) protocol host t r now).2 = 500 ∧
    fileFilterOk fOk = true := by
  have hf : fileFilterOk f = false := by
    simpa [fileFilterOk] using hbad
  have hf2 : fileFilterOk fOk = true := by
    simpa [fileFilterOk] using hok
  have hing : ingest g (some f) protocol host t r now
      = (g, Except.error (IngestError.validation "Invalid file type")) := by
    simp [ingest, hf]
  exact ⟨hf, hing, by rw [hing]; rfl, hf2⟩

/-- C5 amended-claim witness: `photo.gif` is rejected with no write and
status 500, `photo.PNG` passes the extension check. -/
theorem ingest_bad_extension_rejected_as_500_witness :
    fileFilterOk ⟨"photo.gif", [1, 2]⟩ = false ∧
    ingest emptyGallery (some ⟨"photo.gif", [1, 2]⟩) "http" "localhost:3001" 10 20 30
      = (emptyGallery, Except.error (IngestError.validation "Invalid file type")) ∧
    uploadHttpStatus
        (ingest emptyGallery (some ⟨"photo.gif", [1, 2]⟩) "http" "localhost:3001" 10 20 30).2
      = 500 ∧
    fileFilterOk ⟨"photo.PNG", [1, 2]⟩ = true :=
  ingest_bad_extension_rejected_as_500 emptyGallery ⟨"photo.gif", [1, 2]⟩ ⟨"photo.PNG", [1, 2]⟩
    "http" "localhost:3001" 10 20 30 (by decide) (by decide)

/-! ### C6 — the 5 MiB size ceiling is exact -/

/-- C6: with an allowed extension, a payload of at most `5 * 1024 * 1024`
bytes is accepted, while any strictly larger payload is rejected with
`PayloadTooLarge`, the gallery table gaining no row and the uploads
directory no file (multer removes a partial write when the limit aborts the
request). -/
theorem ingest_size_boundary
    (g : GalleryState) (f fBig : UploadFile) (protocol host : String) (t r now : Nat)
    (hext : fileFilterOk f = true) (hsz : f.size ≤ 5 * 1024 * 1024)
    (hextB : fileFilterOk fBig = true) (hszB : 5 * 1024 * 1024 < fBig.size) :
    (ingest g (some f) protocol host t r now).2.isOk = true ∧
    ingest g (some fBig) protocol host t r now
      = (g, Except.error IngestError.payloadTooLarge) := by
  constructor
  · have hnot : ¬ maxFileSize < f.size := by
      simpa [maxFileSize] using Nat.not_lt.mpr hsz
    simp [ingest, hext, hnot, Except.isOk, Except.toBool]
  · have hlt : maxFileSize < fBig.size := by simpa [maxFileSize] using hszB
    simp [ingest, hextB, hlt]

/-- C6 witness: a payload of exactly 5 MiB is accepted and one of
5 MiB + 1 bytes is rejected with no write. -/
theorem ingest_size_boundary_witness :
    (ingest emptyGallery (some ⟨"a.png", List.replicate (5 * 1024 * 1024) 0⟩)
        "http" "h" 1 2 3).2.isOk = true ∧
    ingest emptyGallery (some ⟨"a.png", List.replicate (5 * 1024 * 1024 + 1) 0⟩)
        "http" "h" 1 2 3
      = (emptyGallery, Except.error IngestError.payloadTooLarge) :=
  ingest_size_boundary emptyGallery
    ⟨"a.png", List.replicate (5 * 1024 * 1024) 0⟩
    ⟨"a.png", List.replicate (5 * 1024 * 1024 + 1) 0⟩
    "http" "h" 1 2 3
    (by decide)
    (by show (List.replicate (5 * 1024 * 1024) (0 : Nat)).length ≤ 5 * 1024 * 1024
        rw [List.length_replicate])
    (by decide)
    (by show 5 * 1024 * 1024 < (List.replicate (5 * 1024 * 1024 + 1) (0 : Nat)).length
        rw [List.length_replicate]
        omega)

/-! ### C8 — accepted ingest inserts exactly one row and builds the URL -/

/-- C8: an accepted upload appends exactly one `gallery` row whose
`filename` is the uploader's original filename and whose `url` is
`protocol://host/uploads/<generated storage name>`, stores exactly that one
new file, bumps the id counter, and answers `{ id, url }` for that row. -/
theorem ingest_accept_inserts_row
    (g : GalleryState) (f : UploadFile) (protocol host : String) (t r now : Nat)
    (hext : fileFilterOk f = true) (hsz : f.size ≤ maxFileSize) :
    ingest g (some f) protocol host t r now
      = ({ photos := g.photos ++
              [{ id := g.nextId, filename := f.originalname,
                 url := protocol ++ "://" ++ host ++ "/uploads/"
                          ++ storageName t r f.originalname,
                 uploaded_at := now }],
           nextId := g.nextId + 1,
           files := g.files ++ [storageName t r f.originalname] },
         Except.ok (g.nextId,
           protocol ++ "://" ++ host ++ "/uploads/" ++ storageName t r f.originalname)) := by
  have hnot : ¬ maxFileSize < f.size := Nat.not_lt.mpr hsz
  simp [ingest, hext, hnot]

/-- C8 witness: uploading `beach.png` to a fresh server. -/
theorem ingest_accept_inserts_row_witness :
    ingest emptyGallery (some ⟨"beach.png", [7, 7]⟩) "http" "localhost:3001" 100 9 55
      = ({ photos := [{ id := 1, filename := "beach.png",
                        url := "http://localhost:3001/uploads/100-9.png",
                        uploaded_at := 55 }],
           nextId := 2, files := ["100-9.png"] },
         Except.ok (1, "http://localhost:3001/uploads/100-9.png")) := by
  have h := ingest_accept_inserts_row emptyGallery ⟨"beach.png", [7, 7]⟩
    "http" "localhost:3001" 100 9 55 (by decide) (by decide)
  rw [h]
  rfl

/-! ### C10 — the accept decision depends only on filename and length -/

/-- C10: the accept/reject decision of ingest is a function of the original
filename and the payload's byte length alone — two uploads agreeing on both
are accepted or rejected together, regardless of their bytes. -/
theorem ingest_decision_content_blind
    (g : GalleryState) (f1 f2 : UploadFile) (protocol host : String) (t r now : Nat)
    (hname : f1.originalname = f2.originalname)
    (hlen : f1.content.length = f2.content.length) :
    (ingest g (some f1) protocol host t r now).2.isOk
      = (ingest g (some f2) protocol host t r now).2.isOk := by
  have hfilter : fileFilterOk f1 = fileFilterOk f2 := by
    simp [fileFilterOk, hname]
  have hsize : f1.size = f2.size := by
    simp [UploadFile.size, hlen]
  simp only [ingest, hfilter, hsize]
  by_cases hc : fileFilterOk f2 = false
  · simp [hc]
  · by_cases hd : maxFileSize < f2.size
    · simp [hc, hd]
    · simp [hc, hd, Except.isOk, Except.toBool]

/-- C10 witness: two `junk.png` payloads of arbitrary, differing non-image
bytes are treated alike — and both are in fact accepted. -/
theorem ingest_decision_content_blind_witness :
    (ingest emptyGallery (some ⟨"junk.png", [0, 1, 2, 3]⟩) "http" "h" 1 2 3).2.isOk
        = (ingest emptyGallery (some ⟨"junk.png", [9, 9, 9, 9]⟩) "http" "h" 1 2 3).2.isOk ∧
    (ingest emptyGallery (some ⟨"junk.png", [0, 1, 2, 3]⟩) "http" "h" 1 2 3).2.isOk = true :=
  ⟨ingest_decision_content_blind emptyGallery ⟨"junk.png", [0, 1, 2, 3]⟩
      ⟨"junk.png", [9, 9, 9, 9]⟩ "http" "h" 1 2 3 rfl rfl,
   by decide⟩

/-- An accepted request grows the `gallery` table by exactly one row. -/
theorem ingestReq_accepted_length (g : GalleryState) (q : UploadReq)
    (h : q.accepted = true) :
    ((ingestReq g q).1).photos.length = g.photos.length + 1 := by
  rcases q with ⟨file, protocol, host, t, r, now⟩
  cases file with
  | none => simp [UploadReq.accepted] at h
  | some f =>
    simp only [UploadReq.accepted, Bool.and_eq_true, decide_eq_true_eq] at h
    obtain ⟨h1, h2⟩ := h
    have hnot : ¬ maxFileSize < f.size := Nat.not_lt.mpr h2
    simp [ingestReq, ingest, h1, hnot]

/-- A run of accepted requests grows the table by exactly its length. -/
theorem runIngests_accepted_length (qs : List UploadReq) :
    ∀ g : GalleryState, (∀ q ∈ qs, q.accepted = true) →
      (runIngests g qs).photos.length = g.photos.length + qs.length := by
  induction qs with
  | nil => intro g _; simp [runIngests]
  | cons q rest ih =>
    intro g h
    have hq : q.accepted = true := h q (by simp)
    have hrest := ih ((ingestReq g q).1) fun p hp => h p (by simp [hp])
    simp only [runIngests, List.foldl_cons] at hrest ⊢
    rw [hrest, ingestReq_accepted_length g q hq, List.length_cons]
    omega

/-! ### C4 — listing after N accepted ingests -/

/-- C4: after any sequence of `N` accepted ingests against a fresh server,
GET `/gallery` returns exactly `N` records, in non-increasing `uploaded_at`
order (newest first), and — listing being a pure read — re-listing without an
intervening ingest returns the very same records in the very same order. -/
theorem gallery_list_after_ingests (qs : List UploadReq)
    (h : ∀ q ∈ qs, q.accepted = true) :
    (listGallery (runIngests emptyGallery qs)).length = qs.length ∧
    List.Sorted galleryLe (listGallery (runIngests emptyGallery qs)) ∧
    listGallery (runIngests emptyGallery qs) = listGallery (runIngests emptyGallery qs) := by
  refine ⟨?_, ?_, rfl⟩
  · rw [listGallery, List.length_insertionSort]
    have := runIngests_accepted_length qs emptyGallery h
    simpa [emptyGallery] using this
  · exact List.sorted_insertionSort galleryLe _

/-- C4 witness: two accepted uploads (the second with an earlier clock
reading than the first) are listed as exactly two records, newest first. -/
theorem gallery_list_after_ingests_witness :
    (listGallery (runIngests emptyGallery
        [⟨some ⟨"a.png", [1]⟩, "http", "h", 10, 1, 50⟩,
         ⟨some ⟨"b.jpg", [2]⟩, "http", "h", 20, 2, 40⟩])).length = 2 ∧
    List.Sorted galleryLe (listGallery (runIngests emptyGallery
        [⟨some ⟨"a.png", [1]⟩, "http", "h", 10, 1, 50⟩,
         ⟨some ⟨"b.jpg", [2]⟩, "http", "h", 20, 2, 40⟩])) ∧
    listGallery (runIngests emptyGallery
        [⟨some ⟨"a.png", [1]⟩, "http", "h", 10, 1, 50⟩,
         ⟨some ⟨"b.jpg", [2]⟩, "http", "h", 20, 2, 40⟩])
      = listGallery (runIngests emptyGallery
        [⟨some ⟨"a.png", [1]⟩, "http", "h", 10, 1, 50⟩,
         ⟨some ⟨"b.jpg", [2]⟩, "http", "h", 20, 2, 40⟩]) :=
  gallery_list_after_ingests
    [⟨some ⟨"a.png", [1]⟩, "http", "h", 10, 1, 50⟩,
     ⟨some ⟨"b.jpg", [2]⟩, "http", "h", 20, 2, 40⟩]
    (by decide)

/-! ### C9 — storage names: where collision-freedom really comes from

The generated name is `` `${Date.now()}-${Math.round(Math.random()*1e9)}${ext}` ``.
Nothing in the code prevents two distinct uploads from drawing the same
millisecond clock reading and the same rounded random value, in which case
(for equal extensions) the storage names coincide — the code does not
*guarantee* collision-freedom.  What does hold: the name depends on the
original filename only through its extension, and names are distinct
whenever the `timestamp-random` tokens differ. -/

/-- C9 counterexample: two distinct accepted uploads that draw the same
clock value and the same random value receive the *same* storage name — the
uploads directory ends up with a duplicated name. -/
theorem storage_name_collision_counterexample :
    (⟨"a.png", [1]⟩ : UploadFile) ≠ (⟨"b.png", [2]⟩ : UploadFile) ∧
    (runIngests emptyGallery
        [⟨some ⟨"a.png", [1]⟩, "http", "h", 1000, 7, 5⟩,
         ⟨some ⟨"b.png", [2]⟩, "http", "h", 1000, 7, 6⟩]).files
      = ["1000-7.png", "1000-7.png"] := by
  constructor
  · decide
  · rfl

/-- C9 (amended): the storage name uses the original filename only for its
extension — same `(timestamp, random)` draw and same extension give the same
name regardless of the rest of the filename — and two names are distinct
whenever their `timestamp-random` tokens differ; collision-freedom therefore
holds exactly when the drawn tokens differ, and is not unconditional. -/
theorem storage_name_ext_only_and_token_distinct
    (t1 r1 t2 r2 : Nat) (o1 o2 : String)
    (hext : extname o1 = extname o2)
    (htok : uniqueToken t1 r1 ≠ uniqueToken t2 r2) :
    storageName t1 r1 o1 = storageName t1 r1 o2 ∧
    storageName t1 r1 o1 ≠ storageName t2 r2 o2 := by
  constructor
  · simp [storageName, hext]
  · intro heq
    apply htok
    rw [storageName, storageName, hext] at heq
    have hdata := congrArg String.data heq
    simp only [String.data_append] at hdata
    have := List.append_cancel_right hdata
    exact String.ext this

/-- C9 amended-claim witness: same draw, same extension, different filenames
collide; different draws give different names. -/
theorem storage_name_ext_only_and_token_distinct_witness :
    storageName 1000 7 "a.png" = storageName 1000 7 "b.png" ∧
    storageName 1000 7 "a.png" ≠ storageName 1001 7 "b.png" :=
  storage_name_ext_only_and_token_distinct 1000 7 1001 7 "a.png" "b.png"
    (by decide) (by decide)

end TripSite
